import Mathlib

/-!
Shallow embedding of the task-board backend (`src/backend/app`): the data
model (`models/user.py`, `models/category.py`, `models/task.py`), the
request schemas (`schemas/`), the role helpers (`auth.py`), and the router
handlers (`routers/auth.py`, `routers/users.py`, `routers/categories.py`,
`routers/tasks.py`).

Conventions of the embedding:
* The persistent store is a `DB` value: lists of users, categories and
  tasks in insertion (primary-key) order; SQLAlchemy `query(...).first()`
  becomes `List.find?`, `func.max` becomes `List.max?` over the filtered
  column, row deletion becomes `List.eraseP` on the primary key.
* Every handler is a function `DB → ... → DB × Except HTTPError out`:
  the first component is the durable store after the request.  A handler
  body mutates only the session; the durable store changes at
  `db.commit()`.  Every error in the translated handlers is raised before
  the handler's `db.commit()`, so an error leaves the durable store equal
  to the input store (the session adapter `app.database.get_db` is not
  part of the translated sources; spec §5 requires each handler to be one
  transaction, rolled back when the handler aborts).
* Auto-increment primary keys and the server clock (`func.now()`) are
  passed as explicit `newId` / `now` arguments.  DB-managed timestamp
  columns on `Task` (`created_at`, `updated_at`) are outside the
  embedding; no claim mentions them.
* HTTP status codes are `Nat`s carried in `HTTPError`, matching the
  `HTTPException(status_code=..., detail=...)` raises in the handlers.
-/

namespace TaskBoard

/-- Roles of `models/user.py` (`UserRole`). -/
inductive UserRole where
  | admin
  | member
  | viewer
deriving DecidableEq, Repr

/-- Priorities of `models/task.py` (`TaskPriority`). -/
inductive TaskPriority where
  | low
  | medium
  | high
  | urgent
deriving DecidableEq, Repr

/-- An `HTTPException`: status code and detail message. -/
structure HTTPError where
  status : Nat
  detail : String
deriving DecidableEq, Repr

def HTTP_400_BAD_REQUEST : Nat := 400
def HTTP_403_FORBIDDEN : Nat := 403
def HTTP_404_NOT_FOUND : Nat := 404
def HTTP_409_CONFLICT : Nat := 409

/-- Row of the `users` table (`models/user.py`). -/
structure User where
  id : Nat
  username : String
  email : String
  hashed_password : String
  role : UserRole
  created_at : Nat
deriving DecidableEq, Repr

/-- Row of the `categories` table (`models/category.py`). -/
structure Category where
  id : Nat
  name : String
  order : Nat
  color : Option String
  created_at : Nat
deriving DecidableEq, Repr

/-- Row of the `tasks` table (`models/task.py`); the DB-managed timestamp
columns are outside the embedding. -/
structure Task where
  id : Nat
  title : String
  description : Option String
  category_id : Nat
  assigned_to : Option Nat
  created_by : Nat
  start_date : Option Nat
  due_date : Option Nat
  priority : TaskPriority
  order : Nat
deriving DecidableEq, Repr

/-- The persistent store: the three tables in primary-key order. -/
structure DB where
  users : List User
  categories : List Category
  tasks : List Task
deriving DecidableEq, Repr

/-! ## Request schemas (`schemas/`) -/

/-- `schemas/user.py` `UserCreate`. -/
structure UserCreate where
  username : String
  email : String
  password : String
deriving DecidableEq, Repr

/-- `schemas/category.py` `CategoryCreate`. -/
structure CategoryCreate where
  name : String
  order : Nat
  color : Option String
deriving DecidableEq, Repr

/-- `schemas/category.py` `CategoryReorderItem`. -/
structure CategoryReorderItem where
  id : Nat
  order : Nat
deriving DecidableEq, Repr

/-- `schemas/task.py` `TaskCreate` (`order` optional: absent means
"place at the end"). -/
structure TaskCreate where
  title : String
  description : Option String
  category_id : Nat
  assigned_to : Option Nat
  start_date : Option Nat
  due_date : Option Nat
  priority : TaskPriority
  order : Option Nat
deriving DecidableEq, Repr

/-- `schemas/task.py` `TaskUpdate`.  Pydantic distinguishes a field absent
from the request (`exclude_unset` drops it) from a field explicitly set.
The outer `Option` is presence in the request; for the nullable columns
(`description`, `assigned_to`, `start_date`, `due_date`) the inner
`Option` is the supplied value, `none` being an explicit JSON null.  The
NOT NULL columns (`title`, `category_id`, `priority`, `order`) carry a
plain value when present: an explicit null there is rejected by the
database NOT NULL constraint at commit and no such request completes. -/
structure TaskUpdate where
  title : Option String
  description : Option (Option String)
  category_id : Option Nat
  assigned_to : Option (Option Nat)
  start_date : Option (Option Nat)
  due_date : Option (Option Nat)
  priority : Option TaskPriority
  order : Option Nat
deriving DecidableEq, Repr

/-- `schemas/task.py` `TaskMove`. -/
structure TaskMove where
  category_id : Nat
  order : Nat
deriving DecidableEq, Repr

/-! ## Role helpers (`auth.py`, `routers/categories.py`) -/

/-- `require_admin_or_member` / `get_current_admin_or_member`: 403 unless
the role is in `[UserRole.admin, UserRole.member]`. -/
def require_admin_or_member (current_user : User) : Option HTTPError :=
  if current_user.role ∈ [UserRole.admin, UserRole.member] then none
  else some ⟨HTTP_403_FORBIDDEN, "Admin 또는 Member 권한이 필요합니다."⟩

/-- `require_admin` / `get_current_admin_user`: 403 unless admin. -/
def require_admin (current_user : User) : Option HTTPError :=
  if current_user.role = UserRole.admin then none
  else some ⟨HTTP_403_FORBIDDEN, "Admin 권한이 필요합니다."⟩

/-! ## Ordered-collection queries (`routers/tasks.py`) -/

/-- The `order` column of the tasks of one category, in table order. -/
def ordersInCategory (db : DB) (category_id : Nat) : List Nat :=
  (db.tasks.filter (fun t => t.category_id = category_id)).map Task.order

/-- `db.query(func.max(Task.order)).filter(Task.category_id == category_id)
.scalar()`: the maximum `order` among the category's tasks, `none` when
the category has no tasks. -/
def maxTaskOrder (db : DB) (category_id : Nat) : Option Nat :=
  (ordersInCategory db category_id).max?

/-- Python `x or 0` for `x : int | None`: both `None` and `0` are falsy. -/
def pyOrZero : Option Nat → Nat
  | none => 0
  | some m => if m = 0 then 0 else m

/-- `get_next_order` (`routers/tasks.py` lines 39-46):
`(max_order or 0) + 1`. -/
def get_next_order (db : DB) (category_id : Nat) : Nat :=
  pyOrZero (maxTaskOrder db category_id) + 1

/-! ## Generic row mutation

SQLAlchemy handlers mutate the object returned by `query(...).first()` —
the first row matching the predicate — and `db.delete` removes that row. -/

/-- Replace the first element satisfying `p` by its image under `f`. -/
def replaceFirst {α : Type} (p : α → Bool) (f : α → α) : List α → List α
  | [] => []
  | x :: xs => if p x then f x :: xs else x :: replaceFirst p f xs

/-! ## Auth router (`routers/auth.py`) -/

/-- `register` (`routers/auth.py`).  `hash` is the external
`get_password_hash` collaborator (passlib, outside the core).  The email
duplicate check runs first, then the username check; the first user ever
created gets role `admin`, every later one `member`. -/
def register (hash : String → String) (db : DB) (user_data : UserCreate)
    (newId now : Nat) : DB × Except HTTPError User :=
  match db.users.find? (fun u => u.email = user_data.email) with
  | some _ => (db, .error ⟨HTTP_400_BAD_REQUEST, "이미 등록된 이메일입니다."⟩)
  | none =>
    match db.users.find? (fun u => u.username = user_data.username) with
    | some _ => (db, .error ⟨HTTP_400_BAD_REQUEST, "이미 사용 중인 사용자명입니다."⟩)
    | none =>
      let default_role := if db.users.length = 0 then UserRole.admin else UserRole.member
      let db_user : User :=
        ⟨newId, user_data.username, user_data.email, hash user_data.password, default_role, now⟩
      ({db with users := db.users ++ [db_user]}, .ok db_user)

/-- `get_me` (`routers/auth.py`): returns the authenticated user. -/
def get_me (current_user : User) : User :=
  current_user

/-! ## Users router (`routers/users.py`) -/

/-- `get_users`: every user row. -/
def get_users (db : DB) (current_user : User) : List User :=
  db.users

/-- `get_user`: one user by id, 404 when absent. -/
def get_user (db : DB) (current_user : User) (user_id : Nat) : Except HTTPError User :=
  match db.users.find? (fun u => u.id = user_id) with
  | none => .error ⟨HTTP_404_NOT_FOUND, "사용자를 찾을 수 없습니다."⟩
  | some u => .ok u

/-- `update_user_role` (`routers/users.py` lines 62-97); the
`get_current_admin_user` dependency runs before the handler body. -/
def update_user_role (db : DB) (current_user : User) (user_id : Nat) (role : UserRole) :
    DB × Except HTTPError User :=
  match require_admin current_user with
  | some e => (db, .error e)
  | none =>
    if user_id = current_user.id then
      (db, .error ⟨HTTP_400_BAD_REQUEST, "자신의 역할은 변경할 수 없습니다."⟩)
    else
      match db.users.find? (fun u => u.id = user_id) with
      | none => (db, .error ⟨HTTP_404_NOT_FOUND, "사용자를 찾을 수 없습니다."⟩)
      | some u =>
        let users2 :=
          replaceFirst (fun x => x.id = user_id) (fun x => {x with role := role}) db.users
        ({db with users := users2}, .ok {u with role := role})

/-- `delete_user` (`routers/users.py` lines 100-129). -/
def delete_user (db : DB) (current_user : User) (user_id : Nat) :
    DB × Except HTTPError Unit :=
  match require_admin current_user with
  | some e => (db, .error e)
  | none =>
    if user_id = current_user.id then
      (db, .error ⟨HTTP_400_BAD_REQUEST, "자신의 계정은 삭제할 수 없습니다."⟩)
    else
      match db.users.find? (fun u => u.id = user_id) with
      | none => (db, .error ⟨HTTP_404_NOT_FOUND, "사용자를 찾을 수 없습니다."⟩)
      | some _ =>
        ({db with users := db.users.eraseP (fun u => u.id = user_id)}, .ok ())

/-! ## Categories router (`routers/categories.py`) -/

/-- The `category.tasks` relationship: all tasks referencing the category. -/
def tasksOfCategory (db : DB) (category_id : Nat) : List Task :=
  db.tasks.filter (fun t => t.category_id = category_id)

/-- `create_category`: admin/member only; duplicate name (exact match)
rejected with HTTP 400 before anything is inserted. -/
def create_category (db : DB) (current_user : User) (category_data : CategoryCreate)
    (newId now : Nat) : DB × Except HTTPError Category :=
  match require_admin_or_member current_user with
  | some e => (db, .error e)
  | none =>
    match db.categories.find? (fun c => c.name = category_data.name) with
    | some _ => (db, .error ⟨HTTP_400_BAD_REQUEST, "이미 존재하는 카테고리 이름입니다."⟩)
    | none =>
      let category : Category :=
        ⟨newId, category_data.name, category_data.order, category_data.color, now⟩
      ({db with categories := db.categories ++ [category]}, .ok category)

/-- The loop body of `reorder_categories`: walk the items over the session
state, setting each found category's `order`, and raise 404 at the first
id with no matching category. -/
def applyReorderItems (cats : List Category) :
    List CategoryReorderItem → Except HTTPError (List Category)
  | [] => .ok cats
  | item :: rest =>
    match cats.find? (fun c => c.id = item.id) with
    | none => .error ⟨HTTP_404_NOT_FOUND,
        "카테고리 ID " ++ toString item.id ++ "를 찾을 수 없습니다."⟩
    | some _ =>
      applyReorderItems
        (replaceFirst (fun c => c.id = item.id) (fun c => {c with order := item.order}) cats)
        rest

/-- `db.query(Category).order_by(Category.order).all()`: the category list
sorted by `order` (stable, so ties keep insertion order). -/
def sortByOrder (cats : List Category) : List Category :=
  cats.mergeSort (fun a b => a.order ≤ b.order)

/-- `reorder_categories` (`routers/categories.py` lines 73-100).
Modelled from the spec: the session adapter (`app.database.get_db`) is not
among the sources; per spec §5 the whole batch is one transaction, so the
in-session `category.order` writes of the loop become durable only at the
single `db.commit()` after the loop — the 404 raised mid-loop leaves the
durable store equal to the input store. -/
def reorder_categories (db : DB) (current_user : User)
    (reorder_items : List CategoryReorderItem) : DB × Except HTTPError (List Category) :=
  match require_admin_or_member current_user with
  | some e => (db, .error e)
  | none =>
    match applyReorderItems db.categories reorder_items with
    | .error e => (db, .error e)
    | .ok cats => ({db with categories := cats}, .ok (sortByOrder cats))

/-- `delete_category` (`routers/categories.py` lines 156-181): admin only;
HTTP 400 naming the task count when the category still has tasks. -/
def delete_category (db : DB) (current_user : User) (category_id : Nat) :
    DB × Except HTTPError Unit :=
  match require_admin current_user with
  | some e => (db, .error e)
  | none =>
    match db.categories.find? (fun c => c.id = category_id) with
    | none => (db, .error ⟨HTTP_404_NOT_FOUND, "카테고리를 찾을 수 없습니다."⟩)
    | some category =>
      let n := (tasksOfCategory db category.id).length
      if n > 0 then
        (db, .error ⟨HTTP_400_BAD_REQUEST,
          "카테고리에 " ++ toString n ++
            "개의 일감이 있어 삭제할 수 없습니다. 먼저 일감을 이동하거나 삭제해주세요."⟩)
      else
        ({db with categories := db.categories.eraseP (fun c => c.id = category_id)}, .ok ())

/-! ## Tasks router (`routers/tasks.py`) -/

/-- `task_data.assigned_to is not None and` the assignee does not exist. -/
def assigneeMissing (db : DB) (assigned_to : Option Nat) : Bool :=
  match assigned_to with
  | none => false
  | some a => (db.users.find? (fun u => u.id = a)).isNone

/-- `create_task` (`routers/tasks.py` lines 80-122): admin/member only;
category must exist, assignee (when given) must exist; an absent `order`
is filled in by `get_next_order`; `created_by` is the acting user. -/
def create_task (db : DB) (current_user : User) (task_data : TaskCreate) (newId : Nat) :
    DB × Except HTTPError Task :=
  match require_admin_or_member current_user with
  | some e => (db, .error e)
  | none =>
    if (db.categories.find? (fun c => c.id = task_data.category_id)).isNone then
      (db, .error ⟨HTTP_404_NOT_FOUND, "카테고리를 찾을 수 없습니다."⟩)
    else if assigneeMissing db task_data.assigned_to then
      (db, .error ⟨HTTP_404_NOT_FOUND, "담당자를 찾을 수 없습니다."⟩)
    else
      let ord := match task_data.order with
        | none => get_next_order db task_data.category_id
        | some o => o
      let task : Task :=
        ⟨newId, task_data.title, task_data.description, task_data.category_id,
          task_data.assigned_to, current_user.id, task_data.start_date, task_data.due_date,
          task_data.priority, ord⟩
      ({db with tasks := db.tasks ++ [task]}, .ok task)

/-- `n` successive `create_task` calls with the same payload and actor,
with auto-increment ids from `newId` on; a failed call leaves the store as
it was. -/
def createN (current_user : User) (task_data : TaskCreate) : DB → Nat → Nat → DB
  | db, _, 0 => db
  | db, newId, Nat.succ n =>
    createN current_user task_data (create_task db current_user task_data newId).1 (newId + 1) n

/-- `task_data.category_id is not None and` that category does not exist. -/
def categoryPatchMissing (db : DB) (task_data : TaskUpdate) : Bool :=
  match task_data.category_id with
  | none => false
  | some cid => (db.categories.find? (fun c => c.id = cid)).isNone

/-- `task_data.assigned_to is not None and` that user does not exist; an
explicit null is `None` in Python, so it skips the check. -/
def assigneePatchMissing (db : DB) (task_data : TaskUpdate) : Bool :=
  match task_data.assigned_to with
  | none => false
  | some none => false
  | some (some a) => (db.users.find? (fun u => u.id = a)).isNone

/-- `model_dump(exclude_unset=True)` followed by the `setattr` loop: only
fields present in the request are applied, each with exactly the supplied
value (an explicit null of a nullable column overwrites with null). -/
def applyPatch (t : Task) (task_data : TaskUpdate) : Task :=
  { t with
    title := task_data.title.getD t.title
    description := task_data.description.getD t.description
    category_id := task_data.category_id.getD t.category_id
    assigned_to := task_data.assigned_to.getD t.assigned_to
    start_date := task_data.start_date.getD t.start_date
    due_date := task_data.due_date.getD t.due_date
    priority := task_data.priority.getD t.priority
    order := task_data.order.getD t.order }

/-- `update_task` (`routers/tasks.py` lines 141-185). -/
def update_task (db : DB) (current_user : User) (task_id : Nat) (task_data : TaskUpdate) :
    DB × Except HTTPError Task :=
  match require_admin_or_member current_user with
  | some e => (db, .error e)
  | none =>
    match db.tasks.find? (fun t => t.id = task_id) with
    | none => (db, .error ⟨HTTP_404_NOT_FOUND, "일감을 찾을 수 없습니다."⟩)
    | some task =>
      if categoryPatchMissing db task_data then
        (db, .error ⟨HTTP_404_NOT_FOUND, "카테고리를 찾을 수 없습니다."⟩)
      else if assigneePatchMissing db task_data then
        (db, .error ⟨HTTP_404_NOT_FOUND, "담당자를 찾을 수 없습니다."⟩)
      else
        let tasks2 :=
          replaceFirst (fun t => t.id = task_id) (fun t => applyPatch t task_data) db.tasks
        ({db with tasks := tasks2}, .ok (applyPatch task task_data))

/-- `delete_task` (`routers/tasks.py` lines 188-214): allowed for admin,
member, or the task's creator; 403 otherwise. -/
def delete_task (db : DB) (current_user : User) (task_id : Nat) :
    DB × Except HTTPError Unit :=
  match db.tasks.find? (fun t => t.id = task_id) with
  | none => (db, .error ⟨HTTP_404_NOT_FOUND, "일감을 찾을 수 없습니다."⟩)
  | some task =>
    let is_creator := task.created_by = current_user.id
    let is_admin_or_member := current_user.role ∈ [UserRole.admin, UserRole.member]
    if ¬ (is_admin_or_member ∨ is_creator) then
      (db, .error ⟨HTTP_403_FORBIDDEN, "삭제 권한이 없습니다."⟩)
    else
      ({db with tasks := db.tasks.eraseP (fun t => t.id = task_id)}, .ok ())

/-- `move_task` (`routers/tasks.py` lines 217-250): admin/member only;
after the task and the target category are found, the task's
`category_id` and `order` are overwritten with the supplied values —
nothing else is touched. -/
def move_task (db : DB) (current_user : User) (task_id : Nat) (move_data : TaskMove) :
    DB × Except HTTPError Task :=
  match require_admin_or_member current_user with
  | some e => (db, .error e)
  | none =>
    match db.tasks.find? (fun t => t.id = task_id) with
    | none => (db, .error ⟨HTTP_404_NOT_FOUND, "일감을 찾을 수 없습니다."⟩)
    | some task =>
      match db.categories.find? (fun c => c.id = move_data.category_id) with
      | none => (db, .error ⟨HTTP_404_NOT_FOUND, "카테고리를 찾을 수 없습니다."⟩)
      | some _ =>
        let moved := fun t : Task =>
          {t with category_id := move_data.category_id, order := move_data.order}
        let tasks2 := replaceFirst (fun t => t.id = task_id) moved db.tasks
        ({db with tasks := tasks2}, .ok (moved task))

/-! ## Response serialization (`schemas/user.py`, `schemas/category.py`,
`schemas/task.py`)

FastAPI serializes each handler's return value through its
`response_model`; only the schema's declared fields reach the wire. -/

/-- `UserResponse` (`schemas/user.py` lines 21-30): id, username, email,
role, created_at — `hashed_password` is not a field. -/
structure UserResponse where
  id : Nat
  username : String
  email : String
  role : UserRole
  created_at : Nat
deriving DecidableEq, Repr

/-- Serialization of a user row through `UserResponse`. -/
def userResponseOf (u : User) : UserResponse :=
  ⟨u.id, u.username, u.email, u.role, u.created_at⟩

/-- `CategoryResponse` (`schemas/category.py`). -/
structure CategoryResponse where
  id : Nat
  name : String
  order : Nat
  color : Option String
  created_at : Nat
deriving DecidableEq, Repr

/-- Serialization of a category row through `CategoryResponse`. -/
def categoryResponseOf (c : Category) : CategoryResponse :=
  ⟨c.id, c.name, c.order, c.color, c.created_at⟩

/-- `TaskResponse` (`schemas/task.py`) without the DB-managed timestamp
columns: the task's own columns plus the joined `category`, `assignee`
and `creator` projections. -/
structure TaskResponse where
  id : Nat
  title : String
  description : Option String
  category_id : Nat
  assigned_to : Option Nat
  created_by : Nat
  start_date : Option Nat
  due_date : Option Nat
  priority : TaskPriority
  order : Nat
  category : Option CategoryResponse
  assignee : Option UserResponse
  creator : Option UserResponse
deriving DecidableEq, Repr

/-- `get_task_with_relations` serialized through `TaskResponse`: the
relations are resolved by foreign key and projected through the response
schemas. -/
def taskResponseOf (db : DB) (t : Task) : TaskResponse where
  id := t.id
  title := t.title
  description := t.description
  category_id := t.category_id
  assigned_to := t.assigned_to
  created_by := t.created_by
  start_date := t.start_date
  due_date := t.due_date
  priority := t.priority
  order := t.order
  category := (db.categories.find? (fun c => c.id = t.category_id)).map categoryResponseOf
  assignee := (t.assigned_to.bind (fun a => db.users.find? (fun u => u.id = a))).map userResponseOf
  creator := (db.users.find? (fun u => u.id = t.created_by)).map userResponseOf

/-- `GET /api/users/` as seen on the wire. -/
def get_users_response (db : DB) (current_user : User) : List UserResponse :=
  (get_users db current_user).map userResponseOf

/-- `GET /api/users/{id}` as seen on the wire. -/
def get_user_response (db : DB) (current_user : User) (user_id : Nat) :
    Except HTTPError UserResponse :=
  (get_user db current_user user_id).map userResponseOf

/-- `GET /api/auth/me` as seen on the wire. -/
def get_me_response (current_user : User) : UserResponse :=
  userResponseOf (get_me current_user)

/-- `POST /api/auth/register` as seen on the wire. -/
def register_response (hash : String → String) (db : DB) (user_data : UserCreate)
    (newId now : Nat) : DB × Except HTTPError UserResponse :=
  let r := register hash db user_data newId now
  (r.1, r.2.map userResponseOf)

/-- `PUT /api/users/{id}/role` as seen on the wire. -/
def update_user_role_response (db : DB) (current_user : User) (user_id : Nat)
    (role : UserRole) : DB × Except HTTPError UserResponse :=
  let r := update_user_role db current_user user_id role
  (r.1, r.2.map userResponseOf)

/-- The hash-only rewrite applied to a single user row: every column kept
except `hashed_password`, replaced by `g u`. -/
def scrubUser (g : User → String) (u : User) : User :=
  {u with hashed_password := g u}

/-- Rewrite every stored password hash by `g` (a hash-only change of the
store: all other columns kept). -/
def scrubUsers (g : User → String) (db : DB) : DB :=
  {db with users := db.users.map (scrubUser g)}

/-! ## Concrete fixtures (used by witnesses and counterexamples) -/

/-- Concrete stand-in for the external password hasher. -/
def hash0 : String → String := fun p => "argon2:" ++ p

def adminUser : User := ⟨1, "alice", "alice@example.com", "ha", UserRole.admin, 0⟩

def memberUser : User := ⟨2, "bob", "bob@example.com", "hb", UserRole.member, 0⟩

def viewerUser : User := ⟨3, "carol", "carol@example.com", "hc", UserRole.viewer, 0⟩

def catTodo : Category := ⟨1, "ToDo", 0, none, 0⟩

def catDone : Category := ⟨2, "Done", 1, none, 0⟩

/-- Three users, two categories, no tasks. -/
def db0 : DB := ⟨[adminUser, memberUser, viewerUser], [catTodo, catDone], []⟩

/-- A creation payload for category 1 with no explicit order. -/
def taskPayload : TaskCreate :=
  ⟨"write spec", none, 1, none, none, none, TaskPriority.medium, none⟩

/-! ## Helper lemmas -/

/-- `[1, 2, ..., k]`, the orders the amended C1 predicts after `k`
creations into an initially empty category. -/
def ordersList (k : Nat) : List Nat :=
  (List.range k).map (· + 1)

theorem max?_append_singleton (l : List Nat) (a : Nat) (h : ∀ x ∈ l, x ≤ a) :
    (l ++ [a]).max? = some a := by
  rw [List.max?_eq_some_iff (fun a => le_refl a) max_choice (fun {a b c} => max_le_iff)]
  refine ⟨by simp, ?_⟩
  intro b hb
  rcases List.mem_append.1 hb with h1 | h1
  · exact h b h1
  · simp at h1; omega

theorem ordersList_succ (k : Nat) : ordersList (k + 1) = ordersList k ++ [k + 1] := by
  simp [ordersList, List.range_succ]

theorem mem_ordersList_le {x k : Nat} (h : x ∈ ordersList k) : x ≤ k := by
  simp only [ordersList, List.mem_map, List.mem_range] at h
  obtain ⟨i, hi, rfl⟩ := h
  omega

theorem ordersList_max? (k : Nat) :
    (ordersList k).max? = if k = 0 then none else some k := by
  cases k with
  | zero => simp [ordersList]
  | succ j =>
    rw [ordersList_succ]
    rw [max?_append_singleton _ _ (fun x hx => Nat.le_succ_of_le (mem_ordersList_le hx))]
    simp

theorem get_next_order_of_ordersList {db : DB} {cid k : Nat}
    (h : ordersInCategory db cid = ordersList k) :
    get_next_order db cid = k + 1 := by
  unfold get_next_order maxTaskOrder
  rw [h, ordersList_max?]
  cases k with
  | zero => simp [pyOrZero]
  | succ j => simp [pyOrZero]

theorem create_task_ok {db : DB} {u : User} {d : TaskCreate} (newId : Nat)
    (hrole : u.role ∈ [UserRole.admin, UserRole.member])
    (hcat : (db.categories.find? (fun c => c.id = d.category_id)).isSome = true)
    (hassign : assigneeMissing db d.assigned_to = false) :
    create_task db u d newId =
      ({db with tasks := db.tasks ++
          [⟨newId, d.title, d.description, d.category_id, d.assigned_to, u.id,
            d.start_date, d.due_date, d.priority,
            d.order.getD (get_next_order db d.category_id)⟩]},
        Except.ok ⟨newId, d.title, d.description, d.category_id, d.assigned_to, u.id,
            d.start_date, d.due_date, d.priority,
            d.order.getD (get_next_order db d.category_id)⟩) := by
  obtain ⟨c, hc⟩ := Option.isSome_iff_exists.mp hcat
  unfold create_task
  simp only [require_admin_or_member, if_pos hrole, hc, Option.isNone_some, hassign,
    Bool.false_eq_true, if_false]
  cases d.order <;> rfl

theorem ordersInCategory_append_same {db : DB} {t : Task} {cid : Nat}
    (h : t.category_id = cid) :
    ordersInCategory {db with tasks := db.tasks ++ [t]} cid =
      ordersInCategory db cid ++ [t.order] := by
  simp [ordersInCategory, List.filter_append, h]

theorem createN_ordersList (u : User) (d : TaskCreate)
    (hrole : u.role ∈ [UserRole.admin, UserRole.member])
    (hassign : d.assigned_to = none) (hord : d.order = none) :
    ∀ (n : Nat) (db : DB) (newId k : Nat),
      (db.categories.find? (fun c => c.id = d.category_id)).isSome = true →
      ordersInCategory db d.category_id = ordersList k →
      ordersInCategory (createN u d db newId n) d.category_id = ordersList (k + n) := by
  intro n
  induction n with
  | zero =>
    intro db newId k hcat horders
    simpa [createN] using horders
  | succ m ih =>
    intro db newId k hcat horders
    rw [createN]
    have hnew := @create_task_ok db u d newId hrole hcat
      (by simp [assigneeMissing, hassign])
    rw [hnew]
    have horders2 :
        ordersInCategory
          {db with tasks := db.tasks ++
            [⟨newId, d.title, d.description, d.category_id, d.assigned_to, u.id,
              d.start_date, d.due_date, d.priority,
              d.order.getD (get_next_order db d.category_id)⟩]} d.category_id =
          ordersList (k + 1) := by
      rw [ordersInCategory_append_same rfl]
      rw [horders, hord, get_next_order_of_ordersList horders]
      exact (ordersList_succ k).symm
    have harith : k + 1 + m = k + (m + 1) := by omega
    rw [← harith]
    exact ih _ (newId + 1) (k + 1) hcat horders2

/-! ## C1 — next order and creation sequence -/

/-- C1 counterexample: in `db0` category 1 has no tasks, yet
`get_next_order` returns 1, not 0 as the claim states, and the first task
created there without an explicit order gets order 1, not 0. -/
theorem next_order_empty_is_one_not_zero :
    ordersInCategory db0 1 = [] ∧
    get_next_order db0 1 = 1 ∧ get_next_order db0 1 ≠ 0 ∧
    ordersInCategory (createN memberUser taskPayload db0 10 1) 1 = [1] :=
  ⟨rfl, rfl, by decide, rfl⟩

/-- C1 (amended): for every category, `get_next_order` returns the maximum
existing `order` among that category's tasks plus 1, and returns 1 — not
0 — when the category has no tasks; consequently, creating `n` tasks in
one category without an explicit order assigns them orders
`1, 2, ..., n` (`ordersList n`) in creation sequence. -/
theorem next_order_dense_from_one (db : DB) (u : User) (d : TaskCreate) (newId n : Nat)
    (hrole : u.role ∈ [UserRole.admin, UserRole.member])
    (hcat : (db.categories.find? (fun c => c.id = d.category_id)).isSome = true)
    (hassign : d.assigned_to = none) (hord : d.order = none) :
    (∀ m, maxTaskOrder db d.category_id = some m →
      get_next_order db d.category_id = m + 1) ∧
    (maxTaskOrder db d.category_id = none → get_next_order db d.category_id = 1) ∧
    (ordersInCategory db d.category_id = [] →
      ordersInCategory (createN u d db newId n) d.category_id = ordersList n) := by
  refine ⟨?_, ?_, ?_⟩
  · intro m hm
    unfold get_next_order
    rw [hm]
    by_cases h0 : m = 0 <;> simp [pyOrZero, h0]
  · intro hm
    unfold get_next_order
    rw [hm]
    rfl
  · intro hempty
    have h0 : ordersInCategory db d.category_id = ordersList 0 := by
      simpa [ordersList] using hempty
    simpa using createN_ordersList u d hrole hassign hord n db newId 0 hcat h0

/-- Witness for C1: member creates 3 tasks into the empty category 1 of
`db0`; the assigned orders are `[1, 2, 3]`. -/
theorem next_order_dense_from_one_witness :
    (memberUser.role ∈ [UserRole.admin, UserRole.member]) ∧
    ((db0.categories.find? (fun c => c.id = taskPayload.category_id)).isSome = true) ∧
    taskPayload.assigned_to = none ∧ taskPayload.order = none ∧
    ((∀ m, maxTaskOrder db0 taskPayload.category_id = some m →
        get_next_order db0 taskPayload.category_id = m + 1) ∧
      (maxTaskOrder db0 taskPayload.category_id = none →
        get_next_order db0 taskPayload.category_id = 1) ∧
      (ordersInCategory db0 taskPayload.category_id = [] →
        ordersInCategory (createN memberUser taskPayload db0 10 3) taskPayload.category_id =
          ordersList 3)) :=
  ⟨by decide, rfl, rfl, rfl,
    next_order_dense_from_one db0 memberUser taskPayload 10 3 (by decide) rfl rfl rfl⟩

/-! ## C2 — bulk reorder atomicity -/

theorem replaceFirst_map_id_eq (p : Category → Bool) (f : Category → Category)
    (hf : ∀ c, (f c).id = c.id) :
    ∀ l : List Category, (replaceFirst p f l).map Category.id = l.map Category.id := by
  intro l
  induction l with
  | nil => rfl
  | cons x xs ih =>
    rw [replaceFirst]
    by_cases hx : p x
    · simp [hx, hf]
    · simp [hx, ih]

theorem applyReorderItems_missing :
    ∀ (items : List CategoryReorderItem) (cats : List Category),
      (∃ i ∈ items, i.id ∉ cats.map Category.id) →
      ∃ e, applyReorderItems cats items = Except.error e ∧
        e.status = HTTP_404_NOT_FOUND := by
  intro items
  induction items with
  | nil =>
    intro cats h
    simp at h
  | cons item rest ih =>
    intro cats h
    rw [applyReorderItems]
    cases hfind : cats.find? (fun c => c.id = item.id) with
    | none => exact ⟨_, rfl, rfl⟩
    | some c =>
      obtain ⟨i, hi, hmem⟩ := h
      rcases List.mem_cons.mp hi with rfl | hiRest
      · exfalso
        apply hmem
        have hpc : c.id = i.id := by simpa using List.find?_some hfind
        exact List.mem_map.mpr ⟨c, List.mem_of_find?_eq_some hfind, hpc⟩
      · refine ih _ ⟨i, hiRest, ?_⟩
        rw [replaceFirst_map_id_eq (fun c => decide (c.id = item.id))
          (fun c => {c with order := item.order}) (fun c => rfl)]
        exact hmem

/-- C2: a bulk category-reorder whose item list names at least one id with
no matching category returns NotFound (HTTP 404) and leaves the durable
store — every category's `order` included, also for items before the
missing id — exactly as it was. -/
theorem reorder_missing_id_rolls_back (db : DB) (u : User)
    (items : List CategoryReorderItem)
    (hrole : u.role ∈ [UserRole.admin, UserRole.member])
    (hmiss : ∃ i ∈ items, i.id ∉ db.categories.map Category.id) :
    ∃ e, reorder_categories db u items = (db, Except.error e) ∧
      e.status = HTTP_404_NOT_FOUND := by
  obtain ⟨e, he, hstat⟩ := applyReorderItems_missing items db.categories hmiss
  refine ⟨e, ?_, hstat⟩
  unfold reorder_categories
  simp [require_admin_or_member, hrole, he]

/-- Witness for C2: items `[{id 1, order 5}, {id 999, order 1}]` against
`db0` (categories 1 and 2): the call returns the untouched `db0` with a
404. -/
theorem reorder_missing_id_rolls_back_witness :
    (memberUser.role ∈ [UserRole.admin, UserRole.member]) ∧
    (∃ i ∈ [(⟨1, 5⟩ : CategoryReorderItem), ⟨999, 1⟩],
      i.id ∉ db0.categories.map Category.id) ∧
    (∃ e, reorder_categories db0 memberUser [⟨1, 5⟩, ⟨999, 1⟩] =
        (db0, Except.error e) ∧ e.status = HTTP_404_NOT_FOUND) :=
  ⟨by decide, by decide,
    reorder_missing_id_rolls_back db0 memberUser [⟨1, 5⟩, ⟨999, 1⟩] (by decide) (by decide)⟩

/-! ## C3 — move touches only the moved task -/

theorem replaceFirst_nil {α : Type} (p : α → Bool) (f : α → α) :
    replaceFirst p f [] = [] := rfl

theorem replaceFirst_cons {α : Type} (p : α → Bool) (f : α → α) (x : α) (xs : List α) :
    replaceFirst p f (x :: xs) =
      if p x then f x :: xs else x :: replaceFirst p f xs := rfl

theorem replaceFirst_length {α : Type} (p : α → Bool) (f : α → α) :
    ∀ l : List α, (replaceFirst p f l).length = l.length := by
  intro l
  induction l with
  | nil => rfl
  | cons x xs ih =>
    rw [replaceFirst_cons]
    by_cases hx : p x <;> simp [hx, ih]

theorem replaceFirst_get_of_not_p {α : Type} (p : α → Bool) (f : α → α) :
    ∀ (l : List α) (i : Nat) (hi : i < l.length) (hi2 : i < (replaceFirst p f l).length),
      p (l.get ⟨i, hi⟩) = false →
      (replaceFirst p f l).get ⟨i, hi2⟩ = l.get ⟨i, hi⟩ := by
  intro l
  induction l with
  | nil =>
    intro i hi
    exact absurd hi (by simp)
  | cons x xs ih =>
    intro i hi hi2 hp
    cases i with
    | zero =>
      simp only [List.get] at hp ⊢
      by_cases hx : p x
      · rw [hx] at hp; simp at hp
      · have h2 : replaceFirst p f (x :: xs) = x :: replaceFirst p f xs := by
          rw [replaceFirst_cons, if_neg hx]
        revert hi2
        rw [h2]
        intro hi2
        rfl
    | succ j =>
      simp only [List.get] at hp ⊢
      by_cases hx : p x
      · have h2 : replaceFirst p f (x :: xs) = f x :: xs := by
          rw [replaceFirst_cons, if_pos hx]
        revert hi2
        rw [h2]
        intro hi2
        rfl
      · have h2 : replaceFirst p f (x :: xs) = x :: replaceFirst p f xs := by
          rw [replaceFirst_cons, if_neg hx]
        revert hi2
        rw [h2]
        intro hi2
        exact ih j (by simpa using hi) (by simpa using hi2) hp

theorem replaceFirst_get_or {α : Type} (p : α → Bool) (f : α → α) :
    ∀ (l : List α) (i : Nat) (hi : i < l.length) (hi2 : i < (replaceFirst p f l).length),
      (replaceFirst p f l).get ⟨i, hi2⟩ = l.get ⟨i, hi⟩ ∨
        (p (l.get ⟨i, hi⟩) = true ∧
          (replaceFirst p f l).get ⟨i, hi2⟩ = f (l.get ⟨i, hi⟩)) := by
  intro l
  induction l with
  | nil =>
    intro i hi
    exact absurd hi (by simp)
  | cons x xs ih =>
    intro i hi hi2
    cases i with
    | zero =>
      by_cases hx : p x
      · right
        constructor
        · simpa using hx
        · have h2 : replaceFirst p f (x :: xs) = f x :: xs := by
            rw [replaceFirst_cons, if_pos hx]
          revert hi2
          rw [h2]
          intro hi2
          rfl
      · left
        have h2 : replaceFirst p f (x :: xs) = x :: replaceFirst p f xs := by
          rw [replaceFirst_cons, if_neg hx]
        revert hi2
        rw [h2]
        intro hi2
        rfl
    | succ j =>
      by_cases hx : p x
      · left
        have h2 : replaceFirst p f (x :: xs) = f x :: xs := by
          rw [replaceFirst_cons, if_pos hx]
        revert hi2
        rw [h2]
        intro hi2
        rfl
      · have h2 : replaceFirst p f (x :: xs) = x :: replaceFirst p f xs := by
          rw [replaceFirst_cons, if_neg hx]
        revert hi2
        rw [h2]
        intro hi2
        exact ih j (by simpa using hi) (by simpa using hi2)

/-- C3: a successful `move_task` changes nothing but the moved task's row:
users and categories are untouched, the task table keeps its length, every
task row whose id differs from the moved id is exactly as before (even
when the supplied order collides with a sibling's), and a changed row is
the old row with only `category_id` and `order` overwritten by the
supplied values. -/
theorem move_task_touches_only_target (db : DB) (u : User) (task_id : Nat)
    (md : TaskMove) (db2 : DB) (t2 : Task)
    (hok : move_task db u task_id md = (db2, Except.ok t2)) :
    db2.users = db.users ∧
    db2.categories = db.categories ∧
    db2.tasks.length = db.tasks.length ∧
    (∀ (i : Nat) (hi : i < db.tasks.length) (hi2 : i < db2.tasks.length),
      (db.tasks.get ⟨i, hi⟩).id ≠ task_id →
        db2.tasks.get ⟨i, hi2⟩ = db.tasks.get ⟨i, hi⟩) ∧
    (∀ (i : Nat) (hi : i < db.tasks.length) (hi2 : i < db2.tasks.length),
      db2.tasks.get ⟨i, hi2⟩ = db.tasks.get ⟨i, hi⟩ ∨
        ((db.tasks.get ⟨i, hi⟩).id = task_id ∧
          db2.tasks.get ⟨i, hi2⟩ =
            {db.tasks.get ⟨i, hi⟩ with
              category_id := md.category_id, order := md.order})) := by
  unfold move_task at hok
  cases hreq : require_admin_or_member u with
  | some e =>
    rw [hreq] at hok
    simp at hok
  | none =>
    rw [hreq] at hok
    cases hfind : db.tasks.find? (fun t => t.id = task_id) with
    | none =>
      rw [hfind] at hok
      simp at hok
    | some task =>
      rw [hfind] at hok
      cases hcat : db.categories.find? (fun c => c.id = md.category_id) with
      | none =>
        rw [hcat] at hok
        simp at hok
      | some c =>
        rw [hcat] at hok
        simp only [Prod.mk.injEq] at hok
        obtain ⟨hdb2, ht2⟩ := hok
        subst hdb2
        refine ⟨rfl, rfl, ?_, ?_, ?_⟩
        · exact replaceFirst_length _ _ db.tasks
        · intro i hi hi2 hne
          exact replaceFirst_get_of_not_p _ _ db.tasks i hi hi2 (decide_eq_false hne)
        · intro i hi hi2
          rcases replaceFirst_get_or (fun t => decide (t.id = task_id))
              (fun t => {t with category_id := md.category_id, order := md.order})
              db.tasks i hi hi2 with h | ⟨hp, hval⟩
          · exact Or.inl h
          · exact Or.inr ⟨of_decide_eq_true hp, hval⟩

def taskA : Task := ⟨1, "A", none, 2, none, 1, none, none, TaskPriority.medium, 0⟩

def taskB : Task := ⟨2, "B", none, 1, none, 1, none, none, TaskPriority.medium, 5⟩

/-- Store for the move witness: task 1 sits in category 2, task 2 sits in
category 1 at order 5. -/
def dbMove : DB := ⟨[adminUser, memberUser, viewerUser], [catTodo, catDone], [taskA, taskB]⟩

def movedA : Task := ⟨1, "A", none, 1, none, 1, none, none, TaskPriority.medium, 5⟩

def dbMove2 : DB := ⟨[adminUser, memberUser, viewerUser], [catTodo, catDone], [movedA, taskB]⟩

/-- Witness for C3: moving task 1 into category 1 at order 5 — colliding
with task 2's order 5 — rewrites only task 1's row. -/
theorem move_task_touches_only_target_witness :
    (move_task dbMove memberUser 1 ⟨1, 5⟩ = (dbMove2, Except.ok movedA)) ∧
    (dbMove2.users = dbMove.users ∧
      dbMove2.categories = dbMove.categories ∧
      dbMove2.tasks.length = dbMove.tasks.length ∧
      (∀ (i : Nat) (hi : i < dbMove.tasks.length) (hi2 : i < dbMove2.tasks.length),
        (dbMove.tasks.get ⟨i, hi⟩).id ≠ 1 →
          dbMove2.tasks.get ⟨i, hi2⟩ = dbMove.tasks.get ⟨i, hi⟩) ∧
      (∀ (i : Nat) (hi : i < dbMove.tasks.length) (hi2 : i < dbMove2.tasks.length),
        dbMove2.tasks.get ⟨i, hi2⟩ = dbMove.tasks.get ⟨i, hi⟩ ∨
          ((dbMove.tasks.get ⟨i, hi⟩).id = 1 ∧
            dbMove2.tasks.get ⟨i, hi2⟩ =
              {dbMove.tasks.get ⟨i, hi⟩ with
                category_id := (1 : Nat), order := (5 : Nat)}))) :=
  ⟨rfl, move_task_touches_only_target dbMove memberUser 1 ⟨1, 5⟩ dbMove2 movedA rfl⟩

/-! ## C4 — task deletion authorization -/

/-- C4: for an existing task, deletion succeeds exactly when the actor's
role is admin or member or the actor is the task's creator (so a member
who is not the creator may delete, and a viewer who is the creator may
delete); any other actor — a viewer who is not the creator — gets
Forbidden (HTTP 403) and the store is unchanged. -/
theorem delete_task_role_or_creator (db : DB) (u : User) (task_id : Nat) (task : Task)
    (hfind : db.tasks.find? (fun t => t.id = task_id) = some task) :
    ((u.role = UserRole.admin ∨ u.role = UserRole.member ∨ task.created_by = u.id) →
      delete_task db u task_id =
        ({db with tasks := db.tasks.eraseP (fun t => t.id = task_id)}, Except.ok ())) ∧
    (¬(u.role = UserRole.admin ∨ u.role = UserRole.member ∨ task.created_by = u.id) →
      delete_task db u task_id =
        (db, Except.error ⟨HTTP_403_FORBIDDEN, "삭제 권한이 없습니다."⟩)) := by
  have hcond : (u.role ∈ [UserRole.admin, UserRole.member] ∨ task.created_by = u.id) ↔
      (u.role = UserRole.admin ∨ u.role = UserRole.member ∨ task.created_by = u.id) := by
    simp [or_assoc]
  unfold delete_task
  constructor
  · intro h
    simp only [hfind]
    rw [if_neg (not_not_intro (hcond.mpr h))]
  · intro h
    simp only [hfind]
    rw [if_pos]
    intro hc
    exact h (hcond.mp hc)

def taskC : Task := ⟨7, "C", none, 1, none, 3, none, none, TaskPriority.medium, 1⟩

/-- Store for the delete witness: one task, created by the viewer. -/
def dbDel : DB := ⟨[adminUser, memberUser, viewerUser], [catTodo, catDone], [taskC]⟩

/-- Witness for C4: the viewer (id 3) created task 7, so the viewer may
delete it even though their role is neither admin nor member. -/
theorem delete_task_role_or_creator_witness :
    (dbDel.tasks.find? (fun t => t.id = 7) = some taskC) ∧
    ((viewerUser.role = UserRole.admin ∨ viewerUser.role = UserRole.member ∨
        taskC.created_by = viewerUser.id) →
      delete_task dbDel viewerUser 7 =
        ({dbDel with tasks := dbDel.tasks.eraseP (fun t => t.id = 7)}, Except.ok ())) ∧
    (¬(viewerUser.role = UserRole.admin ∨ viewerUser.role = UserRole.member ∨
        taskC.created_by = viewerUser.id) →
      delete_task dbDel viewerUser 7 =
        (dbDel, Except.error ⟨HTTP_403_FORBIDDEN, "삭제 권한이 없습니다."⟩)) :=
  ⟨rfl,
    (delete_task_role_or_creator dbDel viewerUser 7 taskC rfl).1,
    (delete_task_role_or_creator dbDel viewerUser 7 taskC rfl).2⟩

/-! ## C5 — duplicate unique fields -/

/-- C5 counterexample: creating a second category named "ToDo" in `db0`,
and registering with `db0`'s existing email or username, each fail with
HTTP 400 (BadRequest) — not 409 (Conflict) as the claim states. -/
theorem duplicate_unique_field_is_400_not_409 :
    ((create_category db0 memberUser ⟨"ToDo", 0, none⟩ 9 0).2 =
      Except.error ⟨HTTP_400_BAD_REQUEST, "이미 존재하는 카테고리 이름입니다."⟩) ∧
    ((register hash0 db0 ⟨"dave", "alice@example.com", "secret1"⟩ 9 0).2 =
      Except.error ⟨HTTP_400_BAD_REQUEST, "이미 등록된 이메일입니다."⟩) ∧
    ((register hash0 db0 ⟨"alice", "dave@example.com", "secret1"⟩ 9 0).2 =
      Except.error ⟨HTTP_400_BAD_REQUEST, "이미 사용 중인 사용자명입니다."⟩) ∧
    HTTP_400_BAD_REQUEST ≠ HTTP_409_CONFLICT :=
  ⟨rfl, rfl, rfl, by decide⟩

/-- C5 (amended): every creation that duplicates a unique field — a
category name equal to an existing category's, or a registration email or
username equal to an existing user's — fails with BadRequest (HTTP 400)
and no new entity is created (the store is returned unchanged). -/
theorem duplicate_unique_field_rejected (db : DB) (u : User) (cd : CategoryCreate)
    (rd : UserCreate) (hashfn : String → String) (newId now : Nat) :
    (u.role ∈ [UserRole.admin, UserRole.member] →
      (∃ c ∈ db.categories, c.name = cd.name) →
      create_category db u cd newId now =
        (db, Except.error ⟨HTTP_400_BAD_REQUEST, "이미 존재하는 카테고리 이름입니다."⟩)) ∧
    ((∃ x ∈ db.users, x.email = rd.email ∨ x.username = rd.username) →
      ∃ e, register hashfn db rd newId now = (db, Except.error e) ∧
        e.status = HTTP_400_BAD_REQUEST) := by
  constructor
  · intro hrole hdup
    cases hfind : db.categories.find? (fun c => c.name = cd.name) with
    | none =>
      exfalso
      obtain ⟨c, hc, hname⟩ := hdup
      exact absurd (by simpa using hname)
        (List.find?_eq_none.mp hfind c hc)
    | some c =>
      unfold create_category
      simp only [require_admin_or_member, if_pos hrole, hfind]
  · intro hdup
    cases hfe : db.users.find? (fun x => x.email = rd.email) with
    | some x =>
      refine ⟨⟨HTTP_400_BAD_REQUEST, "이미 등록된 이메일입니다."⟩, ?_, rfl⟩
      unfold register
      simp only [hfe]
    | none =>
      have hnomail : ∀ x ∈ db.users, x.email ≠ rd.email := by
        intro x hx
        have := List.find?_eq_none.mp hfe x hx
        simpa using this
      obtain ⟨x, hx, hor⟩ := hdup
      rcases hor with hmail | huser
      · exact absurd hmail (hnomail x hx)
      · cases hfu : db.users.find? (fun y => y.username = rd.username) with
        | none => exact absurd (by simpa using huser) (List.find?_eq_none.mp hfu x hx)
        | some y =>
          refine ⟨⟨HTTP_400_BAD_REQUEST, "이미 사용 중인 사용자명입니다."⟩, ?_, rfl⟩
          unfold register
          simp only [hfe, hfu]

/-- Witness for C5 (amended): member re-creates "ToDo" in `db0`, and a
registration reusing `db0`'s email "alice@example.com" is rejected with
HTTP 400; `db0` is unchanged. -/
theorem duplicate_unique_field_rejected_witness :
    (memberUser.role ∈ [UserRole.admin, UserRole.member]) ∧
    (∃ c ∈ db0.categories, c.name = "ToDo") ∧
    (∃ x ∈ db0.users, x.email = "alice@example.com" ∨ x.username = "dave") ∧
    (create_category db0 memberUser ⟨"ToDo", 0, none⟩ 9 0 =
      (db0, Except.error ⟨HTTP_400_BAD_REQUEST, "이미 존재하는 카테고리 이름입니다."⟩)) ∧
    (∃ e, register hash0 db0 ⟨"dave", "alice@example.com", "secret1"⟩ 9 0 =
      (db0, Except.error e) ∧ e.status = HTTP_400_BAD_REQUEST) :=
  ⟨by decide, by decide, by decide,
    (duplicate_unique_field_rejected db0 memberUser ⟨"ToDo", 0, none⟩
      ⟨"dave", "alice@example.com", "secret1"⟩ hash0 9 0).1 (by decide) (by decide),
    (duplicate_unique_field_rejected db0 memberUser ⟨"ToDo", 0, none⟩
      ⟨"dave", "alice@example.com", "secret1"⟩ hash0 9 0).2 (by decide)⟩

/-! ## C6 — delete of a non-empty category -/

/-- C6 counterexample: category 1 of `dbDel` holds one task; the admin's
delete fails with HTTP 400 (BadRequest) — not 409 (Conflict) as the claim
states — though the message does embed the exact count. -/
theorem delete_nonempty_category_is_400_not_409 :
    ((delete_category dbDel adminUser 1).2 =
      Except.error ⟨HTTP_400_BAD_REQUEST,
        "카테고리에 1개의 일감이 있어 삭제할 수 없습니다. 먼저 일감을 이동하거나 삭제해주세요."⟩) ∧
    (delete_category dbDel adminUser 1).1 = dbDel ∧
    HTTP_400_BAD_REQUEST ≠ HTTP_409_CONFLICT :=
  ⟨rfl, rfl, by decide⟩

/-- C6 (amended): when an admin deletes a category that still has `n ≥ 1`
tasks, the call fails with BadRequest (HTTP 400) — not Conflict — whose
message embeds the exact count `n`, and the store (category and tasks
included) is unchanged; deleting a category with zero tasks succeeds and
removes exactly that category row. -/
theorem delete_category_blocked_when_nonempty (db : DB) (u : User) (category_id : Nat)
    (category : Category)
    (hadmin : u.role = UserRole.admin)
    (hfind : db.categories.find? (fun c => c.id = category_id) = some category) :
    (0 < (tasksOfCategory db category.id).length →
      delete_category db u category_id =
        (db, Except.error ⟨HTTP_400_BAD_REQUEST,
          "카테고리에 " ++ toString (tasksOfCategory db category.id).length ++
            "개의 일감이 있어 삭제할 수 없습니다. 먼저 일감을 이동하거나 삭제해주세요."⟩)) ∧
    ((tasksOfCategory db category.id).length = 0 →
      delete_category db u category_id =
        ({db with categories := db.categories.eraseP (fun c => c.id = category_id)},
          Except.ok ())) := by
  constructor
  · intro hn
    unfold delete_category
    simp only [require_admin, hadmin, if_pos, hfind]
    rw [if_pos hn]
  · intro hn
    unfold delete_category
    simp only [require_admin, hadmin, if_pos, hfind]
    rw [if_neg (by omega)]

/-- Witness for C6: in `dbDel`, deleting category 1 (one task) yields the
400 with count 1; deleting category 2 (no tasks) succeeds. -/
theorem delete_category_blocked_when_nonempty_witness :
    (adminUser.role = UserRole.admin) ∧
    (dbDel.categories.find? (fun c => c.id = 1) = some catTodo) ∧
    (dbDel.categories.find? (fun c => c.id = 2) = some catDone) ∧
    (0 < (tasksOfCategory dbDel catTodo.id).length) ∧
    ((tasksOfCategory dbDel catDone.id).length = 0) ∧
    (delete_category dbDel adminUser 1 =
      (dbDel, Except.error ⟨HTTP_400_BAD_REQUEST,
        "카테고리에 " ++ toString (tasksOfCategory dbDel catTodo.id).length ++
          "개의 일감이 있어 삭제할 수 없습니다. 먼저 일감을 이동하거나 삭제해주세요."⟩)) ∧
    (delete_category dbDel adminUser 2 =
      ({dbDel with categories := dbDel.categories.eraseP (fun c => c.id = 2)},
        Except.ok ())) :=
  ⟨rfl, rfl, rfl, by decide, by decide,
    (delete_category_blocked_when_nonempty dbDel adminUser 1 catTodo rfl rfl).1 (by decide),
    (delete_category_blocked_when_nonempty dbDel adminUser 2 catDone rfl rfl).2 (by decide)⟩

/-! ## C7 — first registered user is admin -/

/-- C7: registering into a store with zero identities succeeds and yields
role admin; in general a successful registration's role is admin exactly
when the store had zero identities and member otherwise — a function of
the stored user count only, independent of the registration payload. -/
theorem register_first_user_admin (hashfn : String → String) (db : DB)
    (user_data : UserCreate) (newId now : Nat) :
    (db.users = [] →
      register hashfn db user_data newId now =
        ({db with users := [⟨newId, user_data.username, user_data.email,
            hashfn user_data.password, UserRole.admin, now⟩]},
          Except.ok ⟨newId, user_data.username, user_data.email,
            hashfn user_data.password, UserRole.admin, now⟩)) ∧
    (∀ (db2 : DB) (u : User),
      register hashfn db user_data newId now = (db2, Except.ok u) →
      u.role = (if db.users.length = 0 then UserRole.admin else UserRole.member)) := by
  constructor
  · intro h
    unfold register
    rw [h]
    rfl
  · intro db2 u hok
    unfold register at hok
    cases hfe : db.users.find? (fun x => x.email = user_data.email) with
    | some x => rw [hfe] at hok; simp at hok
    | none =>
      rw [hfe] at hok
      cases hfu : db.users.find? (fun x => x.username = user_data.username) with
      | some x => rw [hfu] at hok; simp at hok
      | none =>
        rw [hfu] at hok
        simp only [Prod.mk.injEq, Except.ok.injEq] at hok
        obtain ⟨hdb2, hu⟩ := hok
        rw [← hu]

def dbEmpty : DB := ⟨[], [], []⟩

def eveReg : UserCreate := ⟨"eve", "eve@example.com", "secret1"⟩

/-- Witness for C7: registering eve into the empty store yields role
admin, and any successful registration into the empty store is admin. -/
theorem register_first_user_admin_witness :
    (dbEmpty.users = []) ∧
    (register hash0 dbEmpty eveReg 1 0 =
      ({dbEmpty with users := [⟨1, eveReg.username, eveReg.email,
          hash0 eveReg.password, UserRole.admin, 0⟩]},
        Except.ok ⟨1, eveReg.username, eveReg.email,
          hash0 eveReg.password, UserRole.admin, 0⟩)) ∧
    (∀ (db2 : DB) (u : User),
      register hash0 dbEmpty eveReg 1 0 = (db2, Except.ok u) →
      u.role = (if dbEmpty.users.length = 0 then UserRole.admin else UserRole.member)) :=
  ⟨rfl,
    (register_first_user_admin hash0 dbEmpty eveReg 1 0).1 rfl,
    (register_first_user_admin hash0 dbEmpty eveReg 1 0).2⟩

/-! ## C8 — admin self-protection -/

/-- C8: for an admin actor, a role update or a delete that targets the
actor's own id fails with BadRequest (HTTP 400) — whatever role value is
supplied — and the store is unchanged. -/
theorem admin_self_target_bad_request (db : DB) (u : User) (role : UserRole)
    (hadmin : u.role = UserRole.admin) :
    update_user_role db u u.id role =
      (db, Except.error ⟨HTTP_400_BAD_REQUEST, "자신의 역할은 변경할 수 없습니다."⟩) ∧
    delete_user db u u.id =
      (db, Except.error ⟨HTTP_400_BAD_REQUEST, "자신의 계정은 삭제할 수 없습니다."⟩) := by
  constructor
  · unfold update_user_role
    simp [require_admin, hadmin]
  · unfold delete_user
    simp [require_admin, hadmin]

/-- Witness for C8: the admin of `db0` targeting their own id 1, with
role value viewer, gets the 400s and `db0` is unchanged. -/
theorem admin_self_target_bad_request_witness :
    (adminUser.role = UserRole.admin) ∧
    (update_user_role db0 adminUser adminUser.id UserRole.viewer =
      (db0, Except.error ⟨HTTP_400_BAD_REQUEST, "자신의 역할은 변경할 수 없습니다."⟩)) ∧
    (delete_user db0 adminUser adminUser.id =
      (db0, Except.error ⟨HTTP_400_BAD_REQUEST, "자신의 계정은 삭제할 수 없습니다."⟩)) :=
  ⟨rfl,
    (admin_self_target_bad_request db0 adminUser UserRole.viewer rfl).1,
    (admin_self_target_bad_request db0 adminUser UserRole.viewer rfl).2⟩

/-! ## C9 — partial update semantics -/

/-- C9: in a successful task update, every field absent from the patch
keeps its prior value, and a field explicitly present with value null
among the nullable columns (description, assigned_to, start_date,
due_date) is applied as null, clearing the stored value. -/
theorem update_task_partial_semantics (db : DB) (u : User) (task_id : Nat)
    (p : TaskUpdate) (task : Task) (db2 : DB) (t2 : Task)
    (hfind : db.tasks.find? (fun t => t.id = task_id) = some task)
    (hok : update_task db u task_id p = (db2, Except.ok t2)) :
    (p.title = none → t2.title = task.title) ∧
    (p.description = none → t2.description = task.description) ∧
    (p.category_id = none → t2.category_id = task.category_id) ∧
    (p.assigned_to = none → t2.assigned_to = task.assigned_to) ∧
    (p.start_date = none → t2.start_date = task.start_date) ∧
    (p.due_date = none → t2.due_date = task.due_date) ∧
    (p.priority = none → t2.priority = task.priority) ∧
    (p.order = none → t2.order = task.order) ∧
    (p.description = some none → t2.description = none) ∧
    (p.assigned_to = some none → t2.assigned_to = none) ∧
    (p.start_date = some none → t2.start_date = none) ∧
    (p.due_date = some none → t2.due_date = none) := by
  have ht2 : t2 = applyPatch task p := by
    unfold update_task at hok
    cases hreq : require_admin_or_member u with
    | some e => rw [hreq] at hok; simp at hok
    | none =>
      rw [hreq] at hok
      simp only [hfind] at hok
      cases hc : categoryPatchMissing db p with
      | true => rw [hc] at hok; simp at hok
      | false =>
        rw [hc] at hok
        cases ha : assigneePatchMissing db p with
        | true => rw [ha] at hok; simp at hok
        | false =>
          rw [ha] at hok
          simp only [Bool.false_eq_true, if_false, Prod.mk.injEq, Except.ok.injEq] at hok
          exact hok.2.symm
  subst ht2
  refine ⟨?_, ?_, ?_, ?_, ?_, ?_, ?_, ?_, ?_, ?_, ?_, ?_⟩ <;>
    (intro h; simp [applyPatch, h])

def taskD : Task := ⟨8, "D", some "desc", 1, some 2, 1, some 5, some 9, TaskPriority.high, 2⟩

/-- Store for the patch witness: one task with every nullable column set. -/
def dbPatch : DB := ⟨[adminUser, memberUser, viewerUser], [catTodo, catDone], [taskD]⟩

/-- A patch that leaves title/category/priority/order unset and explicitly
nulls every nullable column. -/
def patchNulls : TaskUpdate := ⟨none, some none, none, some none, some none, some none, none, none⟩

def taskDCleared : Task := ⟨8, "D", none, 1, none, 1, none, none, TaskPriority.high, 2⟩

def dbPatch2 : DB := ⟨[adminUser, memberUser, viewerUser], [catTodo, catDone], [taskDCleared]⟩

/-- Witness for C9: member applies `patchNulls` to task 8 of `dbPatch`:
absent fields survive, the four explicit nulls clear their columns. -/
theorem update_task_partial_semantics_witness :
    (dbPatch.tasks.find? (fun t => t.id = 8) = some taskD) ∧
    (update_task dbPatch memberUser 8 patchNulls = (dbPatch2, Except.ok taskDCleared)) ∧
    ((patchNulls.title = none → taskDCleared.title = taskD.title) ∧
      (patchNulls.description = none → taskDCleared.description = taskD.description) ∧
      (patchNulls.category_id = none → taskDCleared.category_id = taskD.category_id) ∧
      (patchNulls.assigned_to = none → taskDCleared.assigned_to = taskD.assigned_to) ∧
      (patchNulls.start_date = none → taskDCleared.start_date = taskD.start_date) ∧
      (patchNulls.due_date = none → taskDCleared.due_date = taskD.due_date) ∧
      (patchNulls.priority = none → taskDCleared.priority = taskD.priority) ∧
      (patchNulls.order = none → taskDCleared.order = taskD.order) ∧
      (patchNulls.description = some none → taskDCleared.description = none) ∧
      (patchNulls.assigned_to = some none → taskDCleared.assigned_to = none) ∧
      (patchNulls.start_date = some none → taskDCleared.start_date = none) ∧
      (patchNulls.due_date = some none → taskDCleared.due_date = none)) :=
  ⟨rfl, rfl,
    update_task_partial_semantics dbPatch memberUser 8 patchNulls taskD dbPatch2
      taskDCleared rfl rfl⟩

/-! ## C10 — responses never depend on the stored password hash -/

theorem scrubUsers_users (g : User → String) (db : DB) :
    (scrubUsers g db).users = db.users.map (scrubUser g) := rfl

theorem scrubUsers_categories (g : User → String) (db : DB) :
    (scrubUsers g db).categories = db.categories := rfl

theorem find?_map_scrub (g : User → String) (p : User → Bool)
    (hp : ∀ x, p (scrubUser g x) = p x) :
    ∀ l : List User, (l.map (scrubUser g)).find? p = (l.find? p).map (scrubUser g) := by
  intro l
  induction l with
  | nil => rfl
  | cons x xs ih =>
    rw [List.map_cons, List.find?_cons, List.find?_cons, hp x]
    cases hx : p x with
    | true => rfl
    | false => simpa using ih

theorem option_map_response_scrub (g : User → String) (o : Option User) :
    (o.map (scrubUser g)).map userResponseOf = o.map userResponseOf := by
  cases o <;> rfl

theorem map_response_scrub (g : User → String) :
    ∀ l : List User, (l.map (scrubUser g)).map userResponseOf = l.map userResponseOf := by
  intro l
  induction l with
  | nil => rfl
  | cons x xs ih => simp only [List.map_cons, ih]; rfl

theorem bind_find?_scrub (g : User → String) (o : Option Nat) (l : List User) :
    (o.bind (fun a => (l.map (scrubUser g)).find? (fun u => u.id = a))).map userResponseOf =
      (o.bind (fun a => l.find? (fun u => u.id = a))).map userResponseOf := by
  cases o with
  | none => rfl
  | some a =>
    show ((l.map (scrubUser g)).find? (fun u => u.id = a)).map userResponseOf =
      (l.find? (fun u => u.id = a)).map userResponseOf
    rw [find?_map_scrub g (fun u => decide (u.id = a)) (fun x => rfl) l]
    exact option_map_response_scrub g _

/-- C10: every user-returning response body is a function of id, username,
email, role and created_at only.  Rewriting every stored password hash by
an arbitrary function `g` of the row — so that the two stores differ only
in `hashed_password` columns — leaves the wire output of register,
login-me, list-users, get-user and update-role unchanged, as well as the
user projections embedded in a task response; in particular two users
differing only in hashed_password produce identical response bodies. -/
theorem user_responses_ignore_password_hash (g : User → String) (db : DB)
    (cu : User) (uid : Nat) (hashfn : String → String) (rd : UserCreate)
    (newId now : Nat) (role : UserRole) (t : Task) :
    userResponseOf (scrubUser g cu) = userResponseOf cu ∧
    get_users_response (scrubUsers g db) (scrubUser g cu) = get_users_response db cu ∧
    get_user_response (scrubUsers g db) (scrubUser g cu) uid =
      get_user_response db cu uid ∧
    get_me_response (scrubUser g cu) = get_me_response cu ∧
    (register_response hashfn (scrubUsers g db) rd newId now).2 =
      (register_response hashfn db rd newId now).2 ∧
    (update_user_role_response (scrubUsers g db) (scrubUser g cu) uid role).2 =
      (update_user_role_response db cu uid role).2 ∧
    taskResponseOf (scrubUsers g db) t = taskResponseOf db t := by
  refine ⟨rfl, ?_, ?_, rfl, ?_, ?_, ?_⟩
  · unfold get_users_response get_users
    rw [scrubUsers_users]
    exact map_response_scrub g db.users
  · unfold get_user_response get_user
    rw [scrubUsers_users,
      find?_map_scrub g (fun x => decide (x.id = uid)) (fun x => rfl) db.users]
    cases db.users.find? (fun x => x.id = uid) <;> rfl
  · unfold register_response register
    rw [scrubUsers_users,
      find?_map_scrub g (fun x => decide (x.email = rd.email)) (fun x => rfl) db.users]
    cases db.users.find? (fun x => x.email = rd.email) with
    | some x => rfl
    | none =>
      simp only [Option.map_none']
      rw [find?_map_scrub g (fun x => decide (x.username = rd.username))
        (fun x => rfl) db.users]
      cases db.users.find? (fun x => x.username = rd.username) with
      | some x => rfl
      | none =>
        simp only [Option.map_none', List.length_map]
  · unfold update_user_role_response update_user_role
    rw [show require_admin (scrubUser g cu) = require_admin cu from rfl]
    cases require_admin cu with
    | some e => rfl
    | none =>
      rw [show (scrubUser g cu).id = cu.id from rfl]
      by_cases hid : uid = cu.id
      · simp only [hid, if_true]
      · rw [if_neg hid, if_neg hid]
        rw [scrubUsers_users,
          find?_map_scrub g (fun x => decide (x.id = uid)) (fun x => rfl) db.users]
        cases db.users.find? (fun x => x.id = uid) <;> rfl
  · unfold taskResponseOf
    rw [scrubUsers_users, scrubUsers_categories,
      find?_map_scrub g (fun u => decide (u.id = t.created_by)) (fun x => rfl) db.users,
      option_map_response_scrub, bind_find?_scrub]

end TaskBoard
